import Mathlib

/-!
Verification development for the NutriAgent Cloudflare worker: a shallow
embedding of its MCP JSON-RPC gateway, its OpenFoodFacts tool layer and its
agent orchestration loop, together with theorems checking the behavioural
properties stated in the design document.

External effects (HTTP fetches against the OpenFoodFacts API, the LLM
backend, `JSON.parse` / `JSON.stringify`, `crypto.randomUUID`, `Date.now`)
are modelled as explicit oracle parameters; everything else is translated
directly from the source.
-/

set_option autoImplicit false

namespace Nutri

/-- JSON numbers (JS `number` values that only flow through the code
unchanged) are modelled as rationals. -/
abbrev JsNum := Rat

-- ────────────────────────────────────────────────────────────────────────────
-- OpenFoodFacts tool layer (src/tools.ts)
-- ────────────────────────────────────────────────────────────────────────────

/-- Nutrient sub-record of an OpenFoodFacts product (`NutrientInfo` in the
source).  Every field is optional because the upstream JSON may omit any of
them.  The raw record may additionally carry the hyphenated key
`saturated-fat_100g`, modelled as the extra field `saturated_fat_100g_hyphen`;
the summarised output never sets that field. -/
structure NutrientInfo where
  energy_kcal_100g : Option JsNum := none
  fat_100g : Option JsNum := none
  saturated_fat_100g : Option JsNum := none
  carbohydrates_100g : Option JsNum := none
  sugars_100g : Option JsNum := none
  fiber_100g : Option JsNum := none
  proteins_100g : Option JsNum := none
  salt_100g : Option JsNum := none
  sodium_100g : Option JsNum := none
  saturated_fat_100g_hyphen : Option JsNum := none
  deriving DecidableEq

/-- JS `number | string` union used for the raw `nova_group` field. -/
inductive NovaValue where
  | num (n : JsNum)
  | str (s : String)
  deriving DecidableEq

/-- Raw OpenFoodFacts product record, with exactly the fields the source
reads (all optional, as in the upstream JSON). -/
structure OffProduct where
  code : Option String := none
  product_name : Option String := none
  product_name_en : Option String := none
  brands : Option String := none
  categories : Option String := none
  nutriscore_grade : Option String := none
  nova_group : Option NovaValue := none
  ecoscore_grade : Option String := none
  image_front_url : Option String := none
  image_url : Option String := none
  nutriments : Option NutrientInfo := none
  ingredients_text : Option String := none
  ingredients_text_en : Option String := none
  allergens : Option String := none
  quantity : Option String := none
  allergens_tags : Option (List String) := none
  traces : Option String := none
  traces_tags : Option (List String) := none
  deriving DecidableEq

/-- The lean, agent-friendly product shape produced by `summarise`
(`ProductSummary` in the source). -/
structure ProductSummary where
  code : String
  product_name : String
  brands : String
  categories : String
  nutriscore_grade : String
  nova_group : NovaValue
  ecoscore_grade : String
  image_url : String
  nutriments : NutrientInfo
  ingredients_text : String
  allergens : String
  quantity : String
  deriving DecidableEq

/-- Normalise a raw OFF product into a lean summary (`summarise` in the
source); `??`-defaulting is rendered with `<|>` / `getD`. -/
def summarise (p : OffProduct) : ProductSummary :=
  let n := p.nutriments.getD {}
  { code := p.code.getD ""
    product_name := (p.product_name <|> p.product_name_en).getD "Unknown"
    brands := p.brands.getD ""
    categories := p.categories.getD ""
    nutriscore_grade := p.nutriscore_grade.getD "unknown"
    nova_group := p.nova_group.getD (NovaValue.str "unknown")
    ecoscore_grade := p.ecoscore_grade.getD "unknown"
    image_url := (p.image_front_url <|> p.image_url).getD ""
    nutriments :=
      { energy_kcal_100g := n.energy_kcal_100g
        fat_100g := n.fat_100g
        saturated_fat_100g := n.saturated_fat_100g_hyphen <|> n.saturated_fat_100g
        carbohydrates_100g := n.carbohydrates_100g
        sugars_100g := n.sugars_100g
        fiber_100g := n.fiber_100g
        proteins_100g := n.proteins_100g
        salt_100g := n.salt_100g
        sodium_100g := n.sodium_100g }
    ingredients_text := (p.ingredients_text <|> p.ingredients_text_en).getD ""
    allergens := p.allergens.getD ""
    quantity := p.quantity.getD "" }

/-- Parsed body of a product-endpoint fetch: `{ status, product? }`. -/
structure OffProductResponse where
  status : Option JsNum := none
  product : Option OffProduct := none
  deriving DecidableEq

/-- Parsed body of a search/category fetch: `{ count, products }`. -/
structure OffSearchResponse where
  count : Option JsNum := none
  products : Option (List OffProduct) := none
  deriving DecidableEq

/-- Outcome of one `offFetch` against a product endpoint: `Except.error`
models a thrown transport/HTTP failure, `Except.ok` a parsed JSON body. -/
abbrev FetchResult := Except String OffProductResponse

/-- Result shape of `searchProducts` / `getProductsByCategory`. -/
structure SearchResult where
  count : JsNum
  products : List ProductSummary
  deriving DecidableEq

/-- Allergen result shape of `getAllergenInfo`. -/
structure AllergenInfo where
  product_name : String
  allergens : String
  allergens_tags : List String
  traces : String
  traces_tags : List String
  deriving DecidableEq

/-- MCP TOOL 1 (`getProductByBarcode`): fetch the product endpoint for the
barcode; throw `Product not found …` when the body has no product record,
otherwise return the summary.  The HTTP fetch is the oracle parameter. -/
def getProductByBarcode (fetch : String → FetchResult) (barcode : String) :
    Except String ProductSummary := do
  let data ← fetch barcode
  match data.product with
  | none => Except.error ("Product not found for barcode " ++ barcode)
  | some p => Except.ok (summarise p)

/-- Oracle for a search-style fetch, keyed by the query/tag string, page and
page size that the source interpolates into the request URL. -/
abbrev SearchFetch := String → JsNum → JsNum → Except String OffSearchResponse

/-- MCP TOOL 2 (`searchProducts`): keyword search with pagination. -/
def searchProducts (fetch : SearchFetch) (query : String) (page : JsNum)
    (pageSize : JsNum) : Except String SearchResult := do
  let data ← fetch query page pageSize
  Except.ok
    { count := data.count.getD 0
      products := (data.products.getD []).map summarise }

/-- Collapse every maximal run of whitespace into a single dash, as the
source's `replace` with a whitespace-run pattern does. -/
def replaceWsRuns (s : String) : String :=
  (s.data.foldl
    (fun (acc : String × Bool) c =>
      if c.isWhitespace then
        if acc.2 then acc else (acc.1.push (Char.ofNat 45), true)
      else (acc.1.push c, false))
    ("", false)).1

/-- MCP TOOL 3 (`getProductsByCategory`): category browse; the category is
lower-cased and whitespace runs become dashes before keying the fetch. -/
def getProductsByCategory (fetch : SearchFetch) (category : String)
    (page : JsNum) (pageSize : JsNum) : Except String SearchResult := do
  let tag := replaceWsRuns category.toLower
  let data ← fetch tag page pageSize
  Except.ok
    { count := data.count.getD 0
      products := (data.products.getD []).map summarise }

/-- MCP TOOL 4 (`compareProducts`): look up every barcode (the source uses
`Promise.allSettled`, whose per-index outcomes are the individual lookup
results), keep only the fulfilled ones, and return their values.  The
function is total: a failed sub-lookup never fails the whole call. -/
def compareProducts (fetch : String → FetchResult) (barcodes : List String) :
    List ProductSummary :=
  ((barcodes.map (getProductByBarcode fetch)).filter
      (fun r => match r with | Except.ok _ => true | Except.error _ => false)).filterMap
    (fun r => match r with | Except.ok s => some s | Except.error _ => none)

/-- MCP TOOL 5 (`getAllergenInfo`): fetch the product endpoint (restricted
field set) and read allergen fields off the product record, defaulting every
field when the record is absent — it never throws a not-found error. -/
def getAllergenInfo (fetch : String → FetchResult) (barcode : String) :
    Except String AllergenInfo := do
  let data ← fetch barcode
  let p := data.product.getD {}
  Except.ok
    { product_name := p.product_name.getD "Unknown"
      allergens := p.allergens.getD ""
      allergens_tags := p.allergens_tags.getD []
      traces := p.traces.getD ""
      traces_tags := p.traces_tags.getD [] }

-- ────────────────────────────────────────────────────────────────────────────
-- Tool dispatcher (src/tools.ts, `dispatchTool`) and its oracle bundle
-- ────────────────────────────────────────────────────────────────────────────

/-- Argument object of a tool call (`Record<string, unknown>` in the source),
restricted to the keys the dispatcher reads. -/
structure ToolArgs where
  barcode : Option String := none
  query : Option String := none
  page : Option JsNum := none
  page_size : Option JsNum := none
  category : Option String := none
  barcodes : Option (List String) := none
  deriving DecidableEq

/-- Union of the result values the five tool executors can produce. -/
inductive ToolResult where
  | product (s : ProductSummary)
  | listing (count : JsNum) (products : List ProductSummary)
  | compare (ps : List ProductSummary)
  | allergen (a : AllergenInfo)
  deriving DecidableEq

/-- External-effect oracles the tool layer runs against: the four HTTP
fetch shapes plus the `JSON.stringify(·, null, 2)` runtime builtin. -/
structure Oracles where
  productFetch : String → FetchResult
  searchFetch : SearchFetch
  categoryFetch : SearchFetch
  allergenFetch : String → FetchResult
  stringify : ToolResult → String

/-- Route a tool call from the LLM to the right function (`dispatchTool`).
A missing string argument is coerced to the text `undefined` exactly as JS
string interpolation would coerce it into the request URL; a missing
`barcodes` array makes the comparison executor throw, as mapping over
`undefined` does in JS. -/
def dispatchTool (O : Oracles) (name : String) (args : ToolArgs) :
    Except String ToolResult :=
  match name with
  | "get_product_by_barcode" =>
      (getProductByBarcode O.productFetch (args.barcode.getD "undefined")).map
        ToolResult.product
  | "search_products" =>
      (searchProducts O.searchFetch (args.query.getD "undefined")
          (args.page.getD 1) (args.page_size.getD 5)).map
        (fun r => ToolResult.listing r.count r.products)
  | "get_products_by_category" =>
      (getProductsByCategory O.categoryFetch (args.category.getD "undefined")
          (args.page.getD 1) (args.page_size.getD 5)).map
        (fun r => ToolResult.listing r.count r.products)
  | "compare_products" =>
      match args.barcodes with
      | none => Except.error "TypeError: barcodes is undefined"
      | some bs => Except.ok (ToolResult.compare (compareProducts O.productFetch bs))
  | "get_allergen_info" =>
      (getAllergenInfo O.allergenFetch (args.barcode.getD "undefined")).map
        ToolResult.allergen
  | _ => Except.error ("Unknown tool: " ++ name)

-- ────────────────────────────────────────────────────────────────────────────
-- MCP Streamable HTTP server (src/mcp.ts)
-- ────────────────────────────────────────────────────────────────────────────

/-- Property entry of a tool input schema (type, description, and the item
type when the property is an array). -/
structure PropSchema where
  type : String
  description : String := ""
  items : Option String := none
  deriving DecidableEq

/-- Input schema of a tool (a typed object shape). -/
structure InputSchema where
  type : String := "object"
  properties : List (String × PropSchema)
  required : List String
  deriving DecidableEq

/-- One entry of the MCP tool catalog. -/
structure ToolDef where
  name : String
  description : String
  inputSchema : InputSchema
  deriving DecidableEq

/-- Protocol version constant. -/
def MCP_PROTOCOL_VERSION : String := "2025-03-26"

/-- Server identity constant. -/
structure ServerInfo where
  name : String
  version : String
  deriving DecidableEq

/-- The `SERVER_INFO` constant. -/
def SERVER_INFO : ServerInfo := { name := "NutriAgent-MCP", version := "1.2.0" }

/-- Declared server capabilities (`tools: { listChanged: false }`). -/
structure ServerCapabilities where
  toolsListChanged : Bool
  deriving DecidableEq

/-- The `SERVER_CAPABILITIES` constant. -/
def SERVER_CAPABILITIES : ServerCapabilities := { toolsListChanged := false }

/-- The fixed MCP tool catalog (`MCP_TOOLS`). -/
def MCP_TOOLS : List ToolDef :=
  [ { name := "get_product_by_barcode"
      description := "Look up a food product by its barcode (EAN/UPC). Returns full nutritional facts, Nutri-Score, ingredients, allergens."
      inputSchema :=
        { properties :=
            [("barcode",
              { type := "string"
                description := "The product barcode (EAN-13 or UPC-A), e.g. \x273017620422003\x27 for Nutella" })]
          required := ["barcode"] } }
  , { name := "search_products"
      description := "Search the OpenFoodFacts database by product name or keyword. Returns matching products with nutritional info."
      inputSchema :=
        { properties :=
            [("query",
              { type := "string"
                description := "Product name or keyword to search for" }),
             ("page", { type := "number", description := "Page number (default 1)" }),
             ("page_size",
              { type := "number"
                description := "Results per page, max 50 (default 5)" })]
          required := ["query"] } }
  , { name := "get_products_by_category"
      description := "Browse products in a specific food category, e.g. \x27breakfast-cereals\x27, \x27yogurts\x27, \x27sodas\x27."
      inputSchema :=
        { properties :=
            [("category", { type := "string", description := "Food category name" }),
             ("page", { type := "number", description := "Page number (default 1)" }),
             ("page_size",
              { type := "number"
                description := "Results per page (default 5)" })]
          required := ["category"] } }
  , { name := "compare_products"
      description := "Compare nutritional facts and Nutri-Score across multiple products by their barcodes."
      inputSchema :=
        { properties :=
            [("barcodes",
              { type := "array"
                description := "Array of barcodes to compare"
                items := some "string" })]
          required := ["barcodes"] } }
  , { name := "get_allergen_info"
      description := "Get allergen and trace information for a product by barcode. Useful for dietary restriction checks."
      inputSchema :=
        { properties :=
            [("barcode", { type := "string", description := "Product barcode" })]
          required := ["barcode"] } }
  ]

/-- JSON-RPC request identifier (`string | number`); the surrounding
`Option` at use sites models absent-or-null (the source collapses the two
with `req.id ?? null`). -/
inductive RpcId where
  | str (s : String)
  | num (n : JsNum)
  deriving DecidableEq

/-- Parameters of a JSON-RPC request, restricted to the keys the server
reads (only `tools/call` inspects them). -/
structure RpcParams where
  name : Option String := none
  arguments : Option ToolArgs := none
  deriving DecidableEq

/-- A JSON-RPC request envelope. -/
structure JsonRpcRequest where
  id : Option RpcId := none
  method : String
  params : Option RpcParams := none
  deriving DecidableEq

/-- One content item of a tool-call result payload. -/
structure ContentItem where
  type : String
  text : String
  deriving DecidableEq

/-- Union of the result payloads the server can return. -/
inductive RpcResult where
  | initResult (protocolVersion : String) (serverInfo : ServerInfo)
      (capabilities : ServerCapabilities)
  | emptyResult
  | toolsList (tools : List ToolDef)
  | toolCall (content : List ContentItem) (isError : Bool)
  deriving DecidableEq

/-- A JSON-RPC error object; no call site of `rpcError` ever supplies the
optional `data` field, so it is omitted. -/
structure RpcError where
  code : Int
  message : String
  deriving DecidableEq

/-- A JSON-RPC response envelope. -/
structure JsonRpcResponse where
  id : Option RpcId
  result : Option RpcResult := none
  error : Option RpcError := none
  deriving DecidableEq

/-- Build a success response (`rpcOk`). -/
def rpcOk (id : Option RpcId) (result : RpcResult) : JsonRpcResponse :=
  { id := id, result := some result }

/-- Build an error response (`rpcError`). -/
def rpcError (id : Option RpcId) (code : Int) (message : String) : JsonRpcResponse :=
  { id := id, error := some { code := code, message := message } }

/-- The `tools/call` handler (`handleToolCall`): reject a missing or falsy
`name`, reject a name absent from `MCP_TOOLS`, otherwise run the dispatcher
and wrap its outcome — success and thrown failure both become a *successful*
RPC envelope whose payload records `isError`. -/
def handleToolCall (O : Oracles) (id : Option RpcId) (params : Option RpcParams) :
    JsonRpcResponse :=
  match params with
  | none => rpcError id (-32602) "Missing required parameter: name"
  | some ps =>
    match ps.name with
    | none => rpcError id (-32602) "Missing required parameter: name"
    | some toolName =>
      if toolName == "" then
        rpcError id (-32602) "Missing required parameter: name"
      else
        let args := ps.arguments.getD {}
        match MCP_TOOLS.find? (fun t => t.name == toolName) with
        | none => rpcError id (-32602) ("Unknown tool: " ++ toolName)
        | some _ =>
          match dispatchTool O toolName args with
          | Except.ok result =>
              rpcOk id (RpcResult.toolCall
                [{ type := "text", text := O.stringify result }] false)
          | Except.error e =>
              rpcOk id (RpcResult.toolCall
                [{ type := "text", text := "Error: " ++ e }] true)

/-- The JSON-RPC method dispatcher (`handleRpcMethod`); `none` models the
`null` return for fire-and-forget notifications. -/
def handleRpcMethod (O : Oracles) (req : JsonRpcRequest) : Option JsonRpcResponse :=
  let id := req.id
  if req.method == "notifications/initialized" then none
  else if req.method == "notifications/cancelled" then none
  else
    match req.method with
    | "initialize" =>
        some (rpcOk id
          (RpcResult.initResult MCP_PROTOCOL_VERSION SERVER_INFO SERVER_CAPABILITIES))
    | "ping" => some (rpcOk id RpcResult.emptyResult)
    | "tools/list" => some (rpcOk id (RpcResult.toolsList MCP_TOOLS))
    | "tools/call" => some (handleToolCall O id req.params)
    | _ => some (rpcError id (-32601) ("Method not found: " ++ req.method))

-- ────────────────────────────────────────────────────────────────────────────
-- Session store and HTTP transport layer (src/mcp.ts, `handleMcpRequest`)
-- ────────────────────────────────────────────────────────────────────────────

/-- The in-memory session map (`Map<string, { createdAt: number }>`),
modelled as an association list from identifier to creation timestamp. -/
structure SessionStore where
  sessions : List (String × Nat) := []
  deriving DecidableEq

/-- Membership test (`Map.has`). -/
def SessionStore.containsId (s : SessionStore) (id : String) : Bool :=
  s.sessions.any (fun p => p.1 == id)

/-- Insertion/update (`Map.set`). -/
def SessionStore.setId (s : SessionStore) (id : String) (createdAt : Nat) :
    SessionStore :=
  if s.containsId id then
    ⟨s.sessions.map (fun p => if p.1 == id then (id, createdAt) else p)⟩
  else ⟨s.sessions ++ [(id, createdAt)]⟩

/-- Removal (`Map.delete`). -/
def SessionStore.deleteId (s : SessionStore) (id : String) : SessionStore :=
  ⟨s.sessions.filter (fun p => p.1 != id)⟩

/-- The `getOrCreateSession` function: keep a truthy, recognised identifier,
otherwise mint a fresh one (`crypto.randomUUID` and `Date.now` are the
`fresh` / `now` oracle parameters) and register it. -/
def getOrCreateSession (fresh : String) (now : Nat) (store : SessionStore)
    (sessionId : Option String) : String × SessionStore :=
  match sessionId with
  | some sid =>
      if sid != "" && store.containsId sid then (sid, store)
      else (fresh, store.setId fresh now)
  | none => (fresh, store.setId fresh now)

/-- Worker environment bindings the MCP layer reads. -/
structure Env where
  MCP_API_KEY : Option String := none

/-- HTTP request method. -/
inductive HttpMethod where
  | get
  | post
  | delete
  | other (s : String)
  deriving DecidableEq

/-- Parsed JSON body of a POST: a single envelope or a batch array. -/
inductive RpcBody where
  | single (req : JsonRpcRequest)
  | batch (reqs : List JsonRpcRequest)
  deriving DecidableEq

/-- Inbound HTTP request, restricted to the parts the handler reads; a
`body` of `none` models an unparsable (or absent) JSON body. -/
structure McpRequest where
  method : HttpMethod
  contentType : Option String := none
  authHeader : Option String := none
  sessionHeader : Option String := none
  body : Option RpcBody := none
  deriving DecidableEq

/-- Outbound HTTP body shapes the handler produces. -/
inductive HttpBody where
  | empty
  | text (s : String)
  | rpc (r : JsonRpcResponse)
  | rpcBatch (rs : List JsonRpcResponse)
  | sse
  deriving DecidableEq

/-- Outbound HTTP response: status, optional `Mcp-Session-Id` header, body. -/
structure McpResponse where
  status : Nat
  sessionHeader : Option String := none
  body : HttpBody
  deriving DecidableEq

/-- JS `String.prototype.includes`, as decidable infix containment on the
character lists. -/
def jsIncludes (s pattern : String) : Bool :=
  decide (pattern.data <:+: s.data)

/-- The bearer-token gate (`checkMcpAuth`): `none` means the request may
proceed, `some` is the early 401 response. -/
def checkMcpAuth (env : Env) (authHeader : Option String) : Option McpResponse :=
  match env.MCP_API_KEY with
  | none => none
  | some key =>
    let auth := authHeader.getD ""
    if !(auth.startsWith "Bearer ") then
      some { status := 401
             body := HttpBody.rpc
               (rpcError none (-32001) "Unauthorized: Bearer token required") }
    else if auth.drop 7 != key then
      some { status := 401
             body := HttpBody.rpc (rpcError none (-32001) "Unauthorized: invalid token") }
    else none

/-- The transport-level request handler (`handleMcpRequest`), with the
session store threaded explicitly. -/
def handleMcpRequest (O : Oracles) (fresh : String) (now : Nat) (env : Env)
    (store : SessionStore) (req : McpRequest) : McpResponse × SessionStore :=
  match checkMcpAuth env req.authHeader with
  | some resp => (resp, store)
  | none =>
    match req.method with
    | HttpMethod.get =>
        let (sid, store2) := getOrCreateSession fresh now store req.sessionHeader
        ({ status := 200, sessionHeader := some sid, body := HttpBody.sse }, store2)
    | HttpMethod.delete =>
        let store2 :=
          match req.sessionHeader with
          | some sid => if sid != "" then store.deleteId sid else store
          | none => store
        ({ status := 204, body := HttpBody.empty }, store2)
    | HttpMethod.other _ =>
        ({ status := 405, body := HttpBody.text "Method Not Allowed" }, store)
    | HttpMethod.post =>
        if !(jsIncludes (req.contentType.getD "") "application/json") then
          ({ status := 415
             body := HttpBody.rpc
               (rpcError none (-32700) "Content-Type must be application/json") },
           store)
        else
          match req.body with
          | none =>
              ({ status := 400
                 body := HttpBody.rpc (rpcError none (-32700) "Parse error") }, store)
          | some (RpcBody.batch reqs) =>
              let responses := (reqs.map (handleRpcMethod O)).filterMap id
              let (sid, store2) := getOrCreateSession fresh now store req.sessionHeader
              if responses.length == 0 then
                ({ status := 202, sessionHeader := some sid, body := HttpBody.empty },
                 store2)
              else
                ({ status := 200, sessionHeader := some sid
                   body := HttpBody.rpcBatch responses }, store2)
          | some (RpcBody.single rpcReq) =>
              let (sid, store2) := getOrCreateSession fresh now store req.sessionHeader
              match handleRpcMethod O rpcReq with
              | none =>
                  ({ status := 202, sessionHeader := some sid, body := HttpBody.empty },
                   store2)
              | some r =>
                  ({ status := 200, sessionHeader := some sid, body := HttpBody.rpc r },
                   store2)

-- ────────────────────────────────────────────────────────────────────────────
-- NutriAgent orchestration loop (src/agent/nutri-agent.ts)
-- ────────────────────────────────────────────────────────────────────────────

/-- The agent system prompt (`SYSTEM_PROMPT`). -/
def SYSTEM_PROMPT : String :=
  "You are NutriAgent, a friendly and knowledgeable nutrition assistant.
You help users explore food products, check nutritional facts, compare items,
and understand food labels using the OpenFoodFacts database.

CAPABILITIES (via tools):
• Look up any product by barcode (EAN/UPC)
• Search products by name or keyword
• Browse products by category
• Compare nutritional profiles across products
• Check allergens and traces for dietary restrictions

GUIDELINES:
• Always use the tools to get real data — never make up nutritional values.
• Present nutrient data in a clear, readable format.
• Explain Nutri-Score (A-E), NOVA group (1-4), and Eco-Score when relevant.
• If a product is not found, suggest alternative searches.
• Be concise but thorough. Use tables when comparing products.
• When listing nutrients use per-100g values with units.
• Proactively warn about allergens when they appear in results."

/-- Role of a conversation turn. -/
inductive Role where
  | system
  | user
  | assistant
  | tool
  deriving DecidableEq

/-- The `function` member of a tool call request. -/
structure FunctionCall where
  name : String
  arguments : String
  deriving DecidableEq

/-- One tool call requested by the model. -/
structure ToolCall where
  id : String
  function : FunctionCall
  deriving DecidableEq

/-- One conversation turn (`ChatMessage`); `content` is optional because
the backend may omit it at runtime even though the TS type says `string`. -/
structure ChatMessage where
  role : Role
  content : Option String := none
  tool_call_id : Option String := none
  tool_calls : Option (List ToolCall) := none
  deriving DecidableEq

/-- Raw message in a backend chat completion, which may carry the answer in
the alternate `reasoning_content` field. -/
structure LLMMessage where
  role : Role := Role.assistant
  content : Option String := none
  tool_calls : Option (List ToolCall) := none
  reasoning_content : Option String := none
  deriving DecidableEq

/-- Forget the backend-specific `reasoning_content` field when the message
is pushed into the conversation history. -/
def LLMMessage.toChatMessage (m : LLMMessage) : ChatMessage :=
  { role := m.role, content := m.content, tool_calls := m.tool_calls }

/-- The text-generation backend as an oracle: the full message list sent in
the request body maps to a thrown failure (`!res.ok`) or the first choice
message. -/
abbrev LLMOracle := List ChatMessage → Except String LLMMessage

/-- The content normalisation at the end of `callLLM`: when `content` is
falsy and `reasoning_content` is truthy, the reasoning text becomes the
content. -/
def normalizeLLMMessage (msg : LLMMessage) : LLMMessage :=
  if msg.content.getD "" == "" && msg.reasoning_content.getD "" != "" then
    { msg with content := msg.reasoning_content }
  else msg

/-- The `callLLM` method: prepend the system prompt to the history, call
the backend, and normalise the returned message. -/
def callLLM (llm : LLMOracle) (messages : List ChatMessage) :
    Except String LLMMessage :=
  match llm ({ role := Role.system, content := some SYSTEM_PROMPT } :: messages) with
  | Except.error e => Except.error e
  | Except.ok msg => Except.ok (normalizeLLMMessage msg)

/-- External effects of the agent layer: the backend oracle, the MCP client
call (`McpClient.callTool`, which returns the joined text or throws), the
OpenFoodFacts oracles for the direct-dispatch fallback, `JSON.parse` of a
tool call argument string, and `JSON.stringify({ error: String(err) })`. -/
structure AgentExt where
  llm : LLMOracle
  mcpCallTool : String → ToolArgs → Except String String
  off : Oracles
  parseJson : String → Except String ToolArgs
  stringifyError : String → String

/-- The `executeTool` method: try the MCP client first, fall back to direct
in-process dispatch when that throws; a fallback failure propagates. -/
def executeTool (E : AgentExt) (name : String) (args : ToolArgs) :
    Except String String :=
  match E.mcpCallTool name args with
  | Except.ok s => Except.ok s
  | Except.error _ => (dispatchTool E.off name args).map E.off.stringify

/-- The per-invocation body of the tool loop: parse the argument string and
execute the tool, converting any thrown failure into the stringified error
object that becomes the tool turn content. -/
def toolResultFor (E : AgentExt) (tc : ToolCall) : String :=
  match E.parseJson tc.function.arguments >>=
      (fun args => executeTool E tc.function.name args) with
  | Except.ok s => s
  | Except.error e => E.stringifyError e

/-- The loop guard `tool_calls && tool_calls.length > 0`. -/
def hasToolCalls (m : LLMMessage) : Bool :=
  match m.tool_calls with
  | some tcs => tcs.length > 0
  | none => false

/-- The tool turn pushed for one tool invocation. -/
def toolTurn (E : AgentExt) (tc : ToolCall) : ChatMessage :=
  { role := Role.tool, tool_call_id := some tc.id, content := some (toolResultFor E tc) }

/-- Result of running the agentic tool loop: the history as grown by the
loop, the final assistant message (or the failure thrown by a backend
re-call), and — as observational instrumentation for stating the bounds —
the number of tool rounds executed and of tool invocations performed. -/
structure LoopResult where
  history : List ChatMessage
  outcome : Except String LLMMessage
  rounds : Nat
  invocations : Nat

/-- The agentic tool loop of `handleChat`/`onRequest`: while the current
assistant message requests tools and iterations remain, push the assistant
turn, push one tool turn per requested invocation, and re-call the backend.
The fuel argument models the `maxIterations-- > 0` counter. -/
def chatLoop (E : AgentExt) : Nat → List ChatMessage → LLMMessage → LoopResult
  | 0, history, am => { history := history, outcome := Except.ok am, rounds := 0, invocations := 0 }
  | fuel + 1, history, am =>
    if hasToolCalls am then
      let tcs := am.tool_calls.getD []
      let history2 := (history ++ [am.toChatMessage]) ++ tcs.map (toolTurn E)
      match callLLM E.llm history2 with
      | Except.error e =>
          { history := history2, outcome := Except.error e
            rounds := 1, invocations := tcs.length }
      | Except.ok am2 =>
          let r := chatLoop E fuel history2 am2
          { history := r.history, outcome := r.outcome
            rounds := r.rounds + 1, invocations := r.invocations + tcs.length }
    else { history := history, outcome := Except.ok am, rounds := 0, invocations := 0 }

/-- Outcome delivered on the interactive channel: a `response` envelope or
an `error` envelope. -/
inductive ChatOutcome where
  | response (content : String)
  | error (message : String)
  deriving DecidableEq

/-- Result of one `handleChat` run: the delivered outcome, the persisted
conversation state (unchanged when a fault was caught), and the loop
instrumentation counters. -/
structure ChatResult where
  outcome : ChatOutcome
  messages : List ChatMessage
  rounds : Nat
  invocations : Nat
  deriving DecidableEq

/-- The `handleChat` method: append the user turn, call the backend, run
the tool loop with an iteration ceiling of 8, then push the final assistant
turn, persist the history and deliver the final content; any thrown fault is
caught and delivered as an `error` envelope with the state untouched. -/
def handleChat (E : AgentExt) (stateMessages : List ChatMessage)
    (userMessage : String) : ChatResult :=
  let history := stateMessages ++ [{ role := Role.user, content := some userMessage }]
  match callLLM E.llm history with
  | Except.error e =>
      { outcome := ChatOutcome.error ("Sorry, something went wrong: " ++ e)
        messages := stateMessages, rounds := 0, invocations := 0 }
  | Except.ok am =>
    let r := chatLoop E 8 history am
    match r.outcome with
    | Except.error e =>
        { outcome := ChatOutcome.error ("Sorry, something went wrong: " ++ e)
          messages := stateMessages, rounds := r.rounds, invocations := r.invocations }
    | Except.ok final =>
        { outcome := ChatOutcome.response (final.content.getD "")
          messages := r.history ++
            [{ role := Role.assistant, content := some (final.content.getD "") }]
          rounds := r.rounds, invocations := r.invocations }

/-- Result of the `/api/chat` HTTP path (`onRequest`): the JSON response
content (`Except.error` models the un-caught thrown fault), the persisted
state, and the loop counters. -/
structure OnRequestResult where
  response : Except String (Option String)
  messages : List ChatMessage
  rounds : Nat
  invocations : Nat

/-- The `onRequest` `/api/chat` branch: same loop with ceiling 8 but no
try/catch, and the response body carries `assistantMsg.content` as-is. -/
def onRequestChat (E : AgentExt) (stateMessages : List ChatMessage)
    (message : String) : OnRequestResult :=
  let history := stateMessages ++ [{ role := Role.user, content := some message }]
  match callLLM E.llm history with
  | Except.error e =>
      { response := Except.error e, messages := stateMessages
        rounds := 0, invocations := 0 }
  | Except.ok am =>
    let r := chatLoop E 8 history am
    match r.outcome with
    | Except.error e =>
        { response := Except.error e, messages := stateMessages
          rounds := r.rounds, invocations := r.invocations }
    | Except.ok final =>
        { response := Except.ok final.content
          messages := r.history ++
            [{ role := Role.assistant, content := some (final.content.getD "") }]
          rounds := r.rounds, invocations := r.invocations }

-- ────────────────────────────────────────────────────────────────────────────
-- Observation helpers and concrete fixtures used by the theorems below
-- ────────────────────────────────────────────────────────────────────────────

/-- An envelope the dispatcher treats as a fire-and-forget notification
(the two `notifications/…` methods). -/
def isNotification (req : JsonRpcRequest) : Bool :=
  req.method == "notifications/initialized" || req.method == "notifications/cancelled"

/-- Number of tool-result turns in a conversation history. -/
def countToolTurns (ms : List ChatMessage) : Nat :=
  (ms.filter (fun m => m.role == Role.tool)).length

/-- Fixture: oracles whose every fetch fails with `boom`. -/
def oraclesFail : Oracles :=
  { productFetch := fun _ => Except.error "boom"
    searchFetch := fun _ _ _ => Except.error "boom"
    categoryFetch := fun _ _ _ => Except.error "boom"
    allergenFetch := fun _ => Except.error "boom"
    stringify := fun _ => "null" }

/-- Fixture: product fetch where barcode `A` resolves and `B` fails. -/
def fetchAB : String → FetchResult := fun b =>
  if b == "A" then Except.ok { product := some {} } else Except.error "HTTP 500"

/-- Fixture: product fetch returning a well-formed body with no product. -/
def fetchNoProduct : String → FetchResult := fun _ =>
  Except.ok { status := some 0, product := none }

/-- Fixture: agent externals with a stubbed tool path around a given
backend oracle. -/
def extStub (llm : LLMOracle) : AgentExt :=
  { llm := llm
    mcpCallTool := fun _ _ => Except.ok "res"
    off := oraclesFail
    parseJson := fun _ => Except.ok {}
    stringifyError := fun e => e }

/-- Fixture: a backend that always answers `hello` with no tool calls. -/
def llmPlain : LLMOracle := fun _ => Except.ok { content := some "hello" }

/-- Fixture: agent externals around `llmPlain`. -/
def extPlain : AgentExt := extStub llmPlain

/-- Fixture: a first tool call request. -/
def tcA : ToolCall :=
  { id := "1", function := { name := "get_product_by_barcode", arguments := "\x7b\x7d" } }

/-- Fixture: a second tool call request. -/
def tcB : ToolCall :=
  { id := "2", function := { name := "search_products", arguments := "\x7b\x7d" } }

/-- Fixture: a backend whose first reply requests two tool calls and whose
later replies answer `done` with no tool calls. -/
def llmTwoToolsOnce : LLMOracle := fun ms =>
  if ms.length ≤ 2 then
    Except.ok { content := some "", tool_calls := some [tcA, tcB] }
  else Except.ok { content := some "done" }

/-- Fixture: agent externals around `llmTwoToolsOnce`. -/
def extTwoTools : AgentExt := extStub llmTwoToolsOnce

/-- Fixture: a backend that requests one tool call on every reply. -/
def llmAlwaysTools : LLMOracle := fun _ =>
  Except.ok { content := none, tool_calls := some [tcA] }

/-- Fixture: agent externals around `llmAlwaysTools`. -/
def extAlwaysTools : AgentExt := extStub llmAlwaysTools

end Nutri

-- ────────────────────────────────────────────────────────────────────────────
-- Theorems
-- ────────────────────────────────────────────────────────────────────────────

namespace Nutri

/-- C10: when the data-source response carries no product record, the
allergen lookup succeeds with `Unknown` / empty defaults while the barcode
lookup throws its not-found error on the same condition. -/
theorem allergen_lookup_tolerates_missing_product
    (fetch : String → FetchResult) (barcode : String) (resp : OffProductResponse)
    (hfetch : fetch barcode = Except.ok resp) (hmiss : resp.product = none) :
    getAllergenInfo fetch barcode =
        Except.ok { product_name := "Unknown", allergens := "", allergens_tags := []
                    traces := "", traces_tags := [] } ∧
      getProductByBarcode fetch barcode =
        Except.error ("Product not found for barcode " ++ barcode) := by
  constructor
  · simp [getAllergenInfo, hfetch, hmiss, Bind.bind, Except.bind]
  · simp [getProductByBarcode, hfetch, hmiss, Bind.bind, Except.bind]

/-- Witness for C10 at a concrete fetch oracle and barcode. -/
theorem allergen_lookup_tolerates_missing_product_witness :
    getAllergenInfo fetchNoProduct "999" =
        Except.ok { product_name := "Unknown", allergens := "", allergens_tags := []
                    traces := "", traces_tags := [] } ∧
      getProductByBarcode fetchNoProduct "999" =
        Except.error ("Product not found for barcode " ++ "999") :=
  allergen_lookup_tolerates_missing_product fetchNoProduct "999"
    { status := some 0, product := none } rfl rfl

/-- Auxiliary: filtering the fulfilled results then extracting their values
equals a single pass keeping the successes. -/
theorem filter_ok_extract (xs : List (Except String ProductSummary)) :
    ((xs.filter (fun r => match r with
        | Except.ok _ => true
        | Except.error _ => false)).filterMap
      (fun r => match r with
        | Except.ok s => some s
        | Except.error _ => none)) = xs.filterMap Except.toOption := by
  induction xs with
  | nil => rfl
  | cons x xs ih =>
    cases x <;> simp [List.filter_cons, List.filterMap_cons, ih, Except.toOption]

/-- C6: the comparison tool aggregates best-effort — its result is exactly
the summaries of the barcodes whose lookups succeeded, in input order, and
a failed sub-lookup is dropped without failing the whole call (the function
is total by construction). -/
theorem compare_products_best_effort (fetch : String → FetchResult)
    (barcodes : List String) :
    compareProducts fetch barcodes =
        barcodes.filterMap (fun b => (getProductByBarcode fetch b).toOption) ∧
      ∀ (a b : String) (sA : ProductSummary) (e : String),
        getProductByBarcode fetch a = Except.ok sA →
        getProductByBarcode fetch b = Except.error e →
        compareProducts fetch [a, b] = [sA] := by
  constructor
  · rw [compareProducts, filter_ok_extract, List.filterMap_map]
    rfl
  · intro a b sA e ha hb
    simp [compareProducts, ha, hb]

/-- Witness for C6: with a fetch where `A` succeeds and `B` fails, the
comparison of `[A, B]` returns only the summary of `A`. -/
theorem compare_products_best_effort_witness :
    compareProducts fetchAB ["A"] =
        ["A"].filterMap (fun b => (getProductByBarcode fetchAB b).toOption) ∧
      compareProducts fetchAB ["A", "B"] = [summarise {}] := by
  refine ⟨(compare_products_best_effort fetchAB ["A"]).1, ?_⟩
  exact (compare_products_best_effort fetchAB ["A", "B"]).2 "A" "B" (summarise {})
    "HTTP 500" rfl rfl

/-- C1: for every registered tool name, `tools/call` yields a successful
JSON-RPC envelope whose payload has `isError` false and the stringified
result when the executor succeeds, and `isError` true with the failure text
in the content when the executor fails — never an RPC-level error. -/
theorem tools_call_wraps_executor_outcome (O : Oracles) (id : Option RpcId)
    (toolName : String) (args : ToolArgs)
    (hreg : toolName ∈ MCP_TOOLS.map ToolDef.name) :
    handleToolCall O id (some { name := some toolName, arguments := some args }) =
      rpcOk id (RpcResult.toolCall
        [{ type := "text"
           text := match dispatchTool O toolName args with
             | Except.ok r => O.stringify r
             | Except.error e => "Error: " ++ e }]
        (match dispatchTool O toolName args with
          | Except.ok _ => false
          | Except.error _ => true)) := by
  simp only [MCP_TOOLS, List.map, List.mem_cons, List.not_mem_nil, or_false] at hreg
  rcases hreg with h | h | h | h | h <;> subst h <;>
    cases hd : dispatchTool O _ args <;>
      simp [handleToolCall, MCP_TOOLS, hd]

/-- Witness for C1 at a concrete failing oracle bundle and tool name. -/
theorem tools_call_wraps_executor_outcome_witness :
    handleToolCall oraclesFail none
        (some { name := some "get_product_by_barcode", arguments := some {} }) =
      rpcOk none
        (RpcResult.toolCall [{ type := "text", text := "Error: boom" }] true) := by
  rw [tools_call_wraps_executor_outcome oraclesFail none "get_product_by_barcode" {}
    (by decide)]
  rfl

/-- C2: a `tools/call` whose name is not in the registry is answered with a
structured invalid-params error (code −32602) independently of the executor
oracles (so no executor runs), and the registry is the fixed list of five
tool names. -/
theorem tools_call_unknown_name_rejected (O O2 : Oracles) (id : Option RpcId)
    (ps : RpcParams) (n : String)
    (hname : ps.name = some n) (hreg : n ∉ MCP_TOOLS.map ToolDef.name) :
    (∃ msg, handleToolCall O id (some ps) = rpcError id (-32602) msg) ∧
      handleToolCall O id (some ps) = handleToolCall O2 id (some ps) ∧
      MCP_TOOLS.map ToolDef.name =
        ["get_product_by_barcode", "search_products", "get_products_by_category",
         "compare_products", "get_allergen_info"] := by
  have hfind : MCP_TOOLS.find? (fun t => t.name == n) = none := by
    rw [List.find?_eq_none]
    intro t ht
    simp only [beq_iff_eq]
    intro heq
    exact hreg (heq ▸ List.mem_map_of_mem ToolDef.name ht)
  by_cases hz : n = ""
  · subst hz
    refine ⟨⟨"Missing required parameter: name", ?_⟩, ?_, by rfl⟩
    · simp [handleToolCall, hname]
    · simp [handleToolCall, hname]
  · refine ⟨⟨"Unknown tool: " ++ n, ?_⟩, ?_, by rfl⟩
    · simp [handleToolCall, hname, hfind, hz]
    · simp [handleToolCall, hname, hfind, hz]

/-- Witness for C2 at a concrete unregistered name. -/
theorem tools_call_unknown_name_rejected_witness :
    (∃ msg, handleToolCall oraclesFail none (some { name := some "bogus" }) =
        rpcError none (-32602) msg) ∧
      handleToolCall oraclesFail none (some { name := some "bogus" }) =
        handleToolCall oraclesFail none (some { name := some "bogus" }) ∧
      MCP_TOOLS.map ToolDef.name =
        ["get_product_by_barcode", "search_products", "get_products_by_category",
         "compare_products", "get_allergen_info"] :=
  tools_call_unknown_name_rejected oraclesFail oraclesFail none
    { name := some "bogus" } "bogus" rfl (by decide)

/-- Auxiliary: the dispatcher returns no response exactly for the two
notification methods. -/
theorem handleRpcMethod_eq_none_iff (O : Oracles) (req : JsonRpcRequest) :
    handleRpcMethod O req = none ↔ isNotification req = true := by
  unfold handleRpcMethod isNotification
  by_cases h1 : req.method = "notifications/initialized"
  · simp [h1]
  · by_cases h2 : req.method = "notifications/cancelled"
    · simp [h1, h2]
    · simp only [beq_iff_eq, h1, h2, if_false, Bool.or_eq_true]
      constructor
      · intro h
        exfalso
        revert h
        split <;> simp
      · intro h
        exact absurd h (by simp [h1, h2])

/-- Auxiliary: a `filterMap` only keeps elements on which the function is
`some`, so pre-filtering on `isSome` changes nothing. -/
theorem filterMap_eq_filterMap_filter_isSome {α β : Type} (f : α → Option β) :
    ∀ l : List α, l.filterMap f = (l.filter (fun x => (f x).isSome)).filterMap f := by
  intro l
  induction l with
  | nil => rfl
  | cons x xs ih =>
    cases hx : f x <;>
      simp [List.filterMap_cons, List.filter_cons, hx, ih]

/-- Auxiliary: when the function is `some` on every element, `filterMap`
preserves the length. -/
theorem length_filterMap_all_isSome {α β : Type} (f : α → Option β) :
    ∀ l : List α, (∀ x ∈ l, (f x).isSome) → (l.filterMap f).length = l.length := by
  intro l
  induction l with
  | nil => simp
  | cons x xs ih =>
    intro h
    cases hx : f x
    · exact absurd (h x (by simp)) (by simp [hx])
    · simp only [List.filterMap_cons, hx, List.length_cons]
      rw [ih (fun y hy => h y (by simp [hy]))]

/-- C5: a batch is processed per-entry; a batch of only notifications is
answered with a 202 no-content response, while a batch with at least one
non-notification is answered with the response array of exactly the
non-notification entries, in their relative order. -/
theorem mcp_batch_dispatch (O : Oracles) (fresh : String) (now : Nat)
    (env : Env) (store : SessionStore) (ct auth sh : Option String)
    (bs : List JsonRpcRequest)
    (henv : env.MCP_API_KEY = none)
    (hct : jsIncludes (ct.getD "") "application/json" = true) :
    ((∀ b ∈ bs, isNotification b = true) →
      (handleMcpRequest O fresh now env store
          { method := HttpMethod.post, contentType := ct, authHeader := auth
            sessionHeader := sh, body := some (RpcBody.batch bs) }).1 =
        { status := 202
          sessionHeader := some (getOrCreateSession fresh now store sh).1
          body := HttpBody.empty }) ∧
    ((∃ b ∈ bs, isNotification b = false) →
      (handleMcpRequest O fresh now env store
          { method := HttpMethod.post, contentType := ct, authHeader := auth
            sessionHeader := sh, body := some (RpcBody.batch bs) }).1 =
        { status := 200
          sessionHeader := some (getOrCreateSession fresh now store sh).1
          body := HttpBody.rpcBatch
            ((bs.filter (fun b => !(isNotification b))).filterMap (handleRpcMethod O)) } ∧
      ((bs.filter (fun b => !(isNotification b))).filterMap (handleRpcMethod O)).length =
        (bs.filter (fun b => !(isNotification b))).length) := by
  have hauth : checkMcpAuth env auth = none := by
    simp [checkMcpAuth, henv]
  have hmap : ((bs.map (handleRpcMethod O)).filterMap id) = bs.filterMap (handleRpcMethod O) := by
    simp [List.filterMap_map]
  have hpt : ∀ b ∈ bs, (handleRpcMethod O b).isSome = !(isNotification b) := by
    intro b _
    cases hb : handleRpcMethod O b
    · simp [(handleRpcMethod_eq_none_iff O b).1 hb]
    · have hnot : isNotification b ≠ true := by
        intro hn
        rw [(handleRpcMethod_eq_none_iff O b).2 hn] at hb
        exact Option.noConfusion hb
      simp [Bool.not_eq_true] at hnot
      simp [hnot]
  have hfilter : bs.filterMap (handleRpcMethod O) =
      (bs.filter (fun b => !(isNotification b))).filterMap (handleRpcMethod O) := by
    rw [filterMap_eq_filterMap_filter_isSome (handleRpcMethod O) bs]
    congr 1
    exact List.filter_congr hpt
  have hlen : ((bs.filter (fun b => !(isNotification b))).filterMap
      (handleRpcMethod O)).length = (bs.filter (fun b => !(isNotification b))).length := by
    refine length_filterMap_all_isSome (handleRpcMethod O) _ ?_
    intro x hx
    rcases List.mem_filter.1 hx with ⟨hmem, hkeep⟩
    rw [hpt x hmem]
    exact hkeep
  constructor
  · intro hall
    have hnil : bs.filterMap (handleRpcMethod O) = [] := by
      rw [List.filterMap_eq_nil_iff]
      intro b hb
      exact (handleRpcMethod_eq_none_iff O b).2 (hall b hb)
    simp [handleMcpRequest, hauth, hct, hmap, hnil]
  · rintro ⟨b, hb, hnotif⟩
    have hne : (bs.filterMap (handleRpcMethod O)).length ≠ 0 := by
      rw [hfilter, hlen]
      have : b ∈ bs.filter (fun b => !(isNotification b)) :=
        List.mem_filter.2 ⟨hb, by simp [hnotif]⟩
      intro hzero
      rw [List.length_eq_zero] at hzero
      simp [hzero] at this
    refine ⟨?_, hlen⟩
    simp [handleMcpRequest, hauth, hct, hmap, hfilter.symm, hne]

/-- Witness for C5: a one-notification batch gets a 202 no-content reply;
a ping-plus-notification batch gets a one-element response array. -/
theorem mcp_batch_dispatch_witness :
    ((handleMcpRequest oraclesFail "f" 0 {} {}
        { method := HttpMethod.post, contentType := some "application/json"
          authHeader := none, sessionHeader := none
          body := some (RpcBody.batch [{ method := "notifications/initialized" }]) }).1 =
      { status := 202
        sessionHeader := some (getOrCreateSession "f" 0 {} none).1
        body := HttpBody.empty }) ∧
    ((handleMcpRequest oraclesFail "f" 0 {} {}
        { method := HttpMethod.post, contentType := some "application/json"
          authHeader := none, sessionHeader := none
          body := some (RpcBody.batch
            [{ id := some (RpcId.num 1), method := "ping" },
             { method := "notifications/initialized" }]) }).1 =
      { status := 200
        sessionHeader := some (getOrCreateSession "f" 0 {} none).1
        body := HttpBody.rpcBatch
          (([{ id := some (RpcId.num 1), method := "ping" },
             ({ method := "notifications/initialized" } : JsonRpcRequest)].filter
              (fun b => !(isNotification b))).filterMap
            (handleRpcMethod oraclesFail)) }) :=
  ⟨(mcp_batch_dispatch oraclesFail "f" 0 {} {} (some "application/json") none none
      [{ method := "notifications/initialized" }] rfl (by decide)).1
    (by decide),
   ((mcp_batch_dispatch oraclesFail "f" 0 {} {} (some "application/json") none none
      [{ id := some (RpcId.num 1), method := "ping" },
       { method := "notifications/initialized" }] rfl (by decide)).2
    ⟨{ id := some (RpcId.num 1), method := "ping" }, by decide, by decide⟩).1⟩

/-- Auxiliary: after `setId`, the store contains the identifier. -/
theorem containsId_setId (s : SessionStore) (id : String) (t : Nat) :
    (s.setId id t).containsId id = true := by
  simp only [SessionStore.setId, SessionStore.containsId]
  by_cases h : s.sessions.any (fun p => p.1 == id) = true
  · simp only [h, if_true]
    simp only [List.any_eq_true] at h ⊢
    rcases h with ⟨p, hp, hpe⟩
    refine ⟨(id, t), List.mem_map.2 ⟨p, hp, ?_⟩, by simp⟩
    simp only [beq_iff_eq] at hpe
    simp [hpe]
  · simp only [Bool.not_eq_true] at h
    simp [h, List.any_append]

/-- Auxiliary: after `deleteId`, the store no longer contains the
identifier. -/
theorem containsId_deleteId (s : SessionStore) (id : String) :
    (s.deleteId id).containsId id = false := by
  unfold SessionStore.deleteId SessionStore.containsId
  simp only [List.any_eq_true, List.mem_filter]
  simp

/-- Auxiliary: deleting an identifier twice equals deleting it once. -/
theorem deleteId_idem (s : SessionStore) (id : String) :
    (s.deleteId id).deleteId id = s.deleteId id := by
  unfold SessionStore.deleteId
  simp [List.filter_filter]

/-- C7 counterexample: the DELETE (session close) response carries no
`Mcp-Session-Id` header at all, so not *every* gateway response carries a
session token. -/
theorem mcp_delete_response_has_no_session_header :
    ((handleMcpRequest oraclesFail "fresh" 0 {} {}
        { method := HttpMethod.delete, sessionHeader := some "sid" }).1).sessionHeader =
      none := rfl

/-- C7 (amended): every response to a GET keepalive or to a well-formed
JSON-RPC POST carries the session token; a missing or unrecognised
identifier is answered with the freshly minted identifier, which is
registered; a recognised non-empty identifier is echoed with the store
unchanged; and session close removes the identifier and is idempotent. -/
theorem mcp_session_contract :
    (∀ (O : Oracles) (fresh : String) (now : Nat) (env : Env) (store : SessionStore)
        (req : McpRequest), env.MCP_API_KEY = none →
        (req.method = HttpMethod.get ∨
          (req.method = HttpMethod.post ∧
            jsIncludes (req.contentType.getD "") "application/json" = true ∧
            req.body.isSome)) →
        ((handleMcpRequest O fresh now env store req).1).sessionHeader =
          some (getOrCreateSession fresh now store req.sessionHeader).1) ∧
    (∀ (fresh : String) (now : Nat) (store : SessionStore) (sid : Option String),
        (∀ s, sid = some s → store.containsId s = false) →
        (getOrCreateSession fresh now store sid).1 = fresh ∧
        ((getOrCreateSession fresh now store sid).2).containsId fresh = true) ∧
    (∀ (fresh : String) (now : Nat) (store : SessionStore) (s : String),
        s ≠ "" → store.containsId s = true →
        getOrCreateSession fresh now store (some s) = (s, store)) ∧
    (∀ (O : Oracles) (fresh : String) (now : Nat) (env : Env) (store : SessionStore)
        (s : String), env.MCP_API_KEY = none → s ≠ "" →
        (handleMcpRequest O fresh now env store
            { method := HttpMethod.delete, sessionHeader := some s }).1.status = 204 ∧
        ((handleMcpRequest O fresh now env store
            { method := HttpMethod.delete, sessionHeader := some s }).2).containsId s =
          false ∧
        handleMcpRequest O fresh now env
            (handleMcpRequest O fresh now env store
              { method := HttpMethod.delete, sessionHeader := some s }).2
            { method := HttpMethod.delete, sessionHeader := some s } =
          ({ status := 204, body := HttpBody.empty },
            (handleMcpRequest O fresh now env store
              { method := HttpMethod.delete, sessionHeader := some s }).2)) := by
  refine ⟨?_, ?_, ?_, ?_⟩
  · intro O fresh now env store req henv hshape
    have hauth : checkMcpAuth env req.authHeader = none := by
      simp [checkMcpAuth, henv]
    rcases hshape with hget | ⟨hpost, hct, hbody⟩
    · simp [handleMcpRequest, hauth, hget]
    · rcases Option.isSome_iff_exists.1 hbody with ⟨b, hb⟩
      cases b with
      | batch reqs =>
        simp [handleMcpRequest, hauth, hpost, hct, hb]
        split <;> rfl
      | single rpcReq =>
        cases hr : handleRpcMethod O rpcReq <;>
          simp [handleMcpRequest, hauth, hpost, hct, hb, hr]
  · intro fresh now store sid hmiss
    cases sid with
    | none => simp [getOrCreateSession, containsId_setId]
    | some s =>
      have : store.containsId s = false := hmiss s rfl
      simp [getOrCreateSession, this, containsId_setId]
  · intro fresh now store s hne hhit
    have hb : (s != "") = true := by simp [hne]
    simp [getOrCreateSession, hb, hhit]
  · intro O fresh now env store s henv hne
    have hauth : checkMcpAuth env (none : Option String) = none := by
      simp [checkMcpAuth, henv]
    have hb : (s != "") = true := by simp [hne]
    refine ⟨by simp [handleMcpRequest, hauth, hb], ?_, ?_⟩
    · simp [handleMcpRequest, hauth, hb, containsId_deleteId]
    · simp [handleMcpRequest, hauth, hb, deleteId_idem]

/-- Witness for the amended C7 at concrete stores and identifiers. -/
theorem mcp_session_contract_witness :
    ((handleMcpRequest oraclesFail "f" 0 {} {} { method := HttpMethod.get }).1).sessionHeader =
        some (getOrCreateSession "f" 0 {} none).1 ∧
      (getOrCreateSession "f" 0 {} none).1 = "f" ∧
      ((getOrCreateSession "f" 0 {} none).2).containsId "f" = true ∧
      getOrCreateSession "f" 0 { sessions := [("s", 7)] } (some "s") =
        ("s", { sessions := [("s", 7)] }) ∧
      (handleMcpRequest oraclesFail "f" 0 {} { sessions := [("s", 7)] }
          { method := HttpMethod.delete, sessionHeader := some "s" }).1.status = 204 ∧
      ((handleMcpRequest oraclesFail "f" 0 {} { sessions := [("s", 7)] }
          { method := HttpMethod.delete, sessionHeader := some "s" }).2).containsId "s" =
        false :=
  ⟨mcp_session_contract.1 oraclesFail "f" 0 {} {} { method := HttpMethod.get } rfl
      (Or.inl rfl),
    (mcp_session_contract.2.1 "f" 0 {} none (fun s h => Option.noConfusion h)).1,
    (mcp_session_contract.2.1 "f" 0 {} none (fun s h => Option.noConfusion h)).2,
    mcp_session_contract.2.2.1 "f" 0 { sessions := [("s", 7)] } "s" (by decide) (by decide),
    (mcp_session_contract.2.2.2 oraclesFail "f" 0 {} { sessions := [("s", 7)] } "s" rfl
      (by decide)).1,
    (mcp_session_contract.2.2.2 oraclesFail "f" 0 {} { sessions := [("s", 7)] } "s" rfl
      (by decide)).2.1⟩

/-- Auxiliary: normalisation preserves the role. -/
theorem normalizeLLMMessage_role (m : LLMMessage) :
    (normalizeLLMMessage m).role = m.role := by
  unfold normalizeLLMMessage
  split <;> rfl

/-- Auxiliary: normalisation preserves the tool calls. -/
theorem normalizeLLMMessage_tool_calls (m : LLMMessage) :
    (normalizeLLMMessage m).tool_calls = m.tool_calls := by
  unfold normalizeLLMMessage
  split <;> rfl

/-- Auxiliary: normalisation preserves the loop guard. -/
theorem hasToolCalls_normalizeLLMMessage (m : LLMMessage) :
    hasToolCalls (normalizeLLMMessage m) = hasToolCalls m := by
  unfold hasToolCalls
  rw [normalizeLLMMessage_tool_calls]

/-- Auxiliary: when the backend only emits assistant-role messages, so does
`callLLM`. -/
theorem callLLM_role (E : AgentExt)
    (hro : ∀ ms m, E.llm ms = Except.ok m → m.role = Role.assistant)
    (ms : List ChatMessage) (am : LLMMessage)
    (hc : callLLM E.llm ms = Except.ok am) : am.role = Role.assistant := by
  unfold callLLM at hc
  cases hm : E.llm ({ role := Role.system, content := some SYSTEM_PROMPT } :: ms) with
  | error e => rw [hm] at hc; exact Except.noConfusion hc
  | ok m =>
    rw [hm] at hc
    cases hc
    rw [normalizeLLMMessage_role]
    exact hro _ _ hm

/-- Auxiliary: the tool loop performs at most `fuel` rounds. -/
theorem chatLoop_rounds_le (E : AgentExt) :
    ∀ (fuel : Nat) (h : List ChatMessage) (am : LLMMessage),
      (chatLoop E fuel h am).rounds ≤ fuel := by
  intro fuel
  induction fuel with
  | zero => intro h am; exact Nat.le_refl 0
  | succ n ih =>
    intro h am
    by_cases htc : hasToolCalls am = true
    · cases hc : callLLM E.llm
          (h ++ am.toChatMessage :: (am.tool_calls.getD []).map (toolTurn E)) with
      | error e =>
        simp [chatLoop, htc, hc]
      | ok am2 =>
        have hih := ih (h ++ am.toChatMessage :: (am.tool_calls.getD []).map (toolTurn E)) am2
        simp [chatLoop, htc, hc]
        omega
    · simp [chatLoop, htc]

/-- Auxiliary: the tool loop is a no-op when the current message requests
no tools. -/
theorem chatLoop_no_tools (E : AgentExt) (fuel : Nat) (h : List ChatMessage)
    (am : LLMMessage) (htc : hasToolCalls am = false) :
    chatLoop E fuel h am =
      { history := h, outcome := Except.ok am, rounds := 0, invocations := 0 } := by
  cases fuel with
  | zero => rfl
  | succ n => simp [chatLoop, htc]

/-- Auxiliary: with a backend that never throws, the loop ends in an `ok`
outcome. -/
theorem chatLoop_outcome_ok_of_total (E : AgentExt)
    (htotal : ∀ ms, ∃ m, E.llm ms = Except.ok m) :
    ∀ (fuel : Nat) (h : List ChatMessage) (am : LLMMessage),
      ∃ m, (chatLoop E fuel h am).outcome = Except.ok m := by
  intro fuel
  induction fuel with
  | zero => intro h am; exact ⟨am, rfl⟩
  | succ n ih =>
    intro h am
    by_cases htc : hasToolCalls am = true
    · obtain ⟨m, hm⟩ := htotal ({ role := Role.system, content := some SYSTEM_PROMPT } ::
        (h ++ am.toChatMessage :: (am.tool_calls.getD []).map (toolTurn E)))
      have hc : callLLM E.llm
          (h ++ am.toChatMessage :: (am.tool_calls.getD []).map (toolTurn E)) =
          Except.ok (normalizeLLMMessage m) := by
        simp [callLLM, hm]
      obtain ⟨m2, hm2⟩ := ih (h ++ am.toChatMessage ::
        (am.tool_calls.getD []).map (toolTurn E)) (normalizeLLMMessage m)
      exact ⟨m2, by simp [chatLoop, htc, hc, hm2]⟩
    · exact ⟨am, by simp [chatLoop, htc]⟩

/-- C3: the orchestration loops of `handleChat` and of the `/api/chat`
path never exceed the iteration ceiling of 8 tool rounds, and with a
backend that always answers, `handleChat` delivers a final response
envelope. -/
theorem orchestration_iteration_ceiling :
    (∀ (E : AgentExt) (st : List ChatMessage) (msg : String),
        (handleChat E st msg).rounds ≤ 8) ∧
    (∀ (E : AgentExt) (st : List ChatMessage) (msg : String),
        (onRequestChat E st msg).rounds ≤ 8) ∧
    (∀ (E : AgentExt) (st : List ChatMessage) (msg : String),
        (∀ ms, ∃ m, E.llm ms = Except.ok m) →
        ∃ c, (handleChat E st msg).outcome = ChatOutcome.response c) := by
  refine ⟨?_, ?_, ?_⟩
  · intro E st msg
    cases hc : callLLM E.llm (st ++ [{ role := Role.user, content := some msg }]) with
    | error e => simp [handleChat, hc]
    | ok am =>
      cases hr : (chatLoop E 8 (st ++ [{ role := Role.user, content := some msg }]) am).outcome with
      | error e => simpa [handleChat, hc, hr] using chatLoop_rounds_le E 8 _ am
      | ok final => simpa [handleChat, hc, hr] using chatLoop_rounds_le E 8 _ am
  · intro E st msg
    cases hc : callLLM E.llm (st ++ [{ role := Role.user, content := some msg }]) with
    | error e => simp [onRequestChat, hc]
    | ok am =>
      cases hr : (chatLoop E 8 (st ++ [{ role := Role.user, content := some msg }]) am).outcome with
      | error e => simpa [onRequestChat, hc, hr] using chatLoop_rounds_le E 8 _ am
      | ok final => simpa [onRequestChat, hc, hr] using chatLoop_rounds_le E 8 _ am
  · intro E st msg htotal
    obtain ⟨m0, hm0⟩ := htotal ({ role := Role.system, content := some SYSTEM_PROMPT } ::
      (st ++ [{ role := Role.user, content := some msg }]))
    have hc : callLLM E.llm (st ++ [{ role := Role.user, content := some msg }]) =
        Except.ok (normalizeLLMMessage m0) := by
      simp [callLLM, hm0]
    obtain ⟨final, hfin⟩ := chatLoop_outcome_ok_of_total E htotal 8
      (st ++ [{ role := Role.user, content := some msg }]) (normalizeLLMMessage m0)
    exact ⟨final.content.getD "", by simp [handleChat, hc, hfin]⟩

/-- Witness for C3 at a concrete always-answering backend. -/
theorem orchestration_iteration_ceiling_witness :
    (handleChat extPlain [] "hi").rounds ≤ 8 ∧
      (onRequestChat extPlain [] "hi").rounds ≤ 8 ∧
      ∃ c, (handleChat extPlain [] "hi").outcome = ChatOutcome.response c :=
  ⟨orchestration_iteration_ceiling.1 extPlain [] "hi",
    orchestration_iteration_ceiling.2.1 extPlain [] "hi",
    orchestration_iteration_ceiling.2.2 extPlain [] "hi"
      (fun _ => ⟨{ content := some "hello" }, rfl⟩)⟩

/-- Auxiliary: counting tool turns distributes over append. -/
theorem countToolTurns_append (a b : List ChatMessage) :
    countToolTurns (a ++ b) = countToolTurns a + countToolTurns b := by
  simp [countToolTurns, List.filter_append]

/-- Auxiliary: a block of tool turns contributes one tool turn per
invocation. -/
theorem countToolTurns_toolTurns (E : AgentExt) (tcs : List ToolCall) :
    countToolTurns (tcs.map (toolTurn E)) = tcs.length := by
  simp [countToolTurns, List.filter_map, toolTurn, Function.comp]

/-- Auxiliary: the tool loop appends exactly one tool turn per invocation
(for an assistant-role message stream). -/
theorem chatLoop_countToolTurns (E : AgentExt)
    (hro : ∀ ms m, E.llm ms = Except.ok m → m.role = Role.assistant) :
    ∀ (fuel : Nat) (h : List ChatMessage) (am : LLMMessage),
      am.role = Role.assistant →
      countToolTurns (chatLoop E fuel h am).history =
        countToolTurns h + (chatLoop E fuel h am).invocations := by
  intro fuel
  induction fuel with
  | zero => intro h am _; simp [chatLoop]
  | succ n ih =>
    intro h am hrole
    by_cases htc : hasToolCalls am = true
    · have hcount2 : countToolTurns
          (h ++ am.toChatMessage :: (am.tool_calls.getD []).map (toolTurn E)) =
          countToolTurns h + (am.tool_calls.getD []).length := by
        simp [countToolTurns, List.filter_append, List.filter_cons,
          LLMMessage.toChatMessage, hrole, List.filter_map, Function.comp, toolTurn]
      cases hc : callLLM E.llm
          (h ++ am.toChatMessage :: (am.tool_calls.getD []).map (toolTurn E)) with
      | error e =>
        simp [chatLoop, htc, hc, hcount2]
      | ok am2 =>
        have hrole2 : am2.role = Role.assistant := callLLM_role E hro _ am2 hc
        have hih := ih (h ++ am.toChatMessage ::
          (am.tool_calls.getD []).map (toolTurn E)) am2 hrole2
        simp [chatLoop, htc, hc]
        omega
    · simp [chatLoop, htc]

/-- C4 counterexample: a single tool round carrying two tool invocations
appends two tool-result turns, so the number of appended tool-result turns
is not the number of rounds. -/
theorem tool_turns_rounds_counterexample :
    (handleChat extTwoTools [] "hi").rounds = 1 ∧
      countToolTurns (handleChat extTwoTools [] "hi").messages = 2 ∧
      ¬ countToolTurns (handleChat extTwoTools [] "hi").messages =
          (handleChat extTwoTools [] "hi").rounds := by
  refine ⟨by decide, by decide, by decide⟩

/-- C4 (amended): one tool-result turn is appended per tool invocation —
for an assistant-role backend stream, a successfully answered conversation
has exactly (initial tool turns + total invocations) tool-result turns, all
appended before the final assistant answer turn. -/
theorem tool_turns_match_invocations (E : AgentExt) (st : List ChatMessage)
    (msg c : String)
    (hro : ∀ ms m, E.llm ms = Except.ok m → m.role = Role.assistant)
    (hout : (handleChat E st msg).outcome = ChatOutcome.response c) :
    countToolTurns (handleChat E st msg).messages =
        countToolTurns st + (handleChat E st msg).invocations ∧
      ∃ pre, (handleChat E st msg).messages =
          pre ++ [{ role := Role.assistant, content := some c }] ∧
        countToolTurns pre = countToolTurns st + (handleChat E st msg).invocations := by
  cases hc : callLLM E.llm (st ++ [{ role := Role.user, content := some msg }]) with
  | error e => simp [handleChat, hc] at hout
  | ok am =>
    have hrole : am.role = Role.assistant := callLLM_role E hro _ am hc
    have hcount := chatLoop_countToolTurns E hro 8
      (st ++ [{ role := Role.user, content := some msg }]) am hrole
    cases hr : (chatLoop E 8 (st ++ [{ role := Role.user, content := some msg }]) am).outcome with
    | error e => simp [handleChat, hc, hr] at hout
    | ok final =>
      have hcval : ChatOutcome.response (final.content.getD "") = ChatOutcome.response c := by
        simpa [handleChat, hc, hr] using hout
      have hcval2 : final.content.getD "" = c := by
        cases hcval; rfl
      have huser : countToolTurns (st ++ [{ role := Role.user, content := some msg }]) =
          countToolTurns st := by
        simp [countToolTurns_append, countToolTurns]
      constructor
      · simp only [handleChat, hc, hr]
        rw [countToolTurns_append, hcount, huser]
        simp [countToolTurns]
      · refine ⟨(chatLoop E 8 (st ++ [{ role := Role.user, content := some msg }]) am).history,
          ?_, ?_⟩
        · simp [handleChat, hc, hr, hcval2]
        · rw [hcount, huser]
          simp [handleChat, hc, hr]

/-- Witness for the amended C4 at the two-invocation backend fixture. -/
theorem tool_turns_match_invocations_witness :
    countToolTurns (handleChat extTwoTools [] "hi").messages =
        countToolTurns [] + (handleChat extTwoTools [] "hi").invocations ∧
      ∃ pre, (handleChat extTwoTools [] "hi").messages =
          pre ++ [{ role := Role.assistant, content := some "done" }] ∧
        countToolTurns pre = countToolTurns [] + (handleChat extTwoTools [] "hi").invocations :=
  tool_turns_match_invocations extTwoTools [] "hi" "done"
    (fun ms m h => by
      simp only [extTwoTools, extStub, llmTwoToolsOnce] at h
      split at h <;> (cases h; rfl))
    (by decide)

/-- C8: a backend reply with no tool-invocation requests is final — its
content is delivered as the answer — and when the primary content field is
empty while the alternate reasoning field is present, the reasoning value
becomes the effective content. -/
theorem final_answer_and_reasoning_fallback :
    (∀ (E : AgentExt) (st : List ChatMessage) (msg : String) (am : LLMMessage),
        callLLM E.llm (st ++ [{ role := Role.user, content := some msg }]) = Except.ok am →
        hasToolCalls am = false →
        (handleChat E st msg).outcome = ChatOutcome.response (am.content.getD "")) ∧
    (∀ (m : LLMMessage) (r : String),
        m.content.getD "" = "" → m.reasoning_content = some r →
        (normalizeLLMMessage m).content.getD "" = r) := by
  constructor
  · intro E st msg am hc htc
    have hloop := chatLoop_no_tools E 8
      (st ++ [{ role := Role.user, content := some msg }]) am htc
    simp [handleChat, hc, hloop]
  · intro m r h1 h2
    by_cases hr : r = ""
    · subst hr
      unfold normalizeLLMMessage
      simp [h1, h2]
    · unfold normalizeLLMMessage
      simp [h1, h2, hr]

/-- Witness for C8: a no-tools reply is delivered as the final content, and
a reply with empty content but reasoning text `why` has effective content
`why`. -/
theorem final_answer_and_reasoning_fallback_witness :
    (handleChat extPlain [] "hi").outcome = ChatOutcome.response "hello" ∧
      (normalizeLLMMessage { content := none, reasoning_content := some "why" }).content.getD ""
        = "why" :=
  ⟨final_answer_and_reasoning_fallback.1 extPlain [] "hi" { content := some "hello" } rfl rfl,
    final_answer_and_reasoning_fallback.2 { content := none, reasoning_content := some "why" }
      "why" rfl rfl⟩

/-- Auxiliary: with a backend that always answers and always requests
tools, the loop consumes all its fuel and still ends in a tools-requesting
`ok` outcome. -/
theorem chatLoop_always_tools (E : AgentExt)
    (htotal : ∀ ms, ∃ m, E.llm ms = Except.ok m ∧ hasToolCalls m = true) :
    ∀ (fuel : Nat) (h : List ChatMessage) (am : LLMMessage), hasToolCalls am = true →
      (chatLoop E fuel h am).rounds = fuel ∧
      ∃ final, (chatLoop E fuel h am).outcome = Except.ok final ∧
        hasToolCalls final = true := by
  intro fuel
  induction fuel with
  | zero => intro h am htc; exact ⟨rfl, am, rfl, htc⟩
  | succ n ih =>
    intro h am htc
    obtain ⟨m, hm, hmt⟩ := htotal ({ role := Role.system, content := some SYSTEM_PROMPT } ::
      (h ++ am.toChatMessage :: (am.tool_calls.getD []).map (toolTurn E)))
    have hc : callLLM E.llm
        (h ++ am.toChatMessage :: (am.tool_calls.getD []).map (toolTurn E)) =
        Except.ok (normalizeLLMMessage m) := by
      simp [callLLM, hm]
    have htc2 : hasToolCalls (normalizeLLMMessage m) = true := by
      rw [hasToolCalls_normalizeLLMMessage]; exact hmt
    obtain ⟨hrounds, final, hfin, hft⟩ := ih (h ++ am.toChatMessage ::
      (am.tool_calls.getD []).map (toolTurn E)) (normalizeLLMMessage m) htc2
    refine ⟨?_, final, ?_, hft⟩
    · simp [chatLoop, htc, hc]
      omega
    · simp [chatLoop, htc, hc]
      exact hfin

/-- C9: when the backend keeps requesting tools, the loop stops exactly at
the ceiling of 8 rounds and the last backend content (possibly empty) is
delivered as a normal response envelope, not an error. -/
theorem ceiling_reached_silent_success (E : AgentExt) (st : List ChatMessage)
    (msg : String)
    (htotal : ∀ ms, ∃ m, E.llm ms = Except.ok m ∧ hasToolCalls m = true) :
    (handleChat E st msg).rounds = 8 ∧
      ∃ final, hasToolCalls final = true ∧
        (handleChat E st msg).outcome = ChatOutcome.response (final.content.getD "") := by
  obtain ⟨m0, hm0, hmt0⟩ := htotal ({ role := Role.system, content := some SYSTEM_PROMPT } ::
    (st ++ [{ role := Role.user, content := some msg }]))
  have hc : callLLM E.llm (st ++ [{ role := Role.user, content := some msg }]) =
      Except.ok (normalizeLLMMessage m0) := by
    simp [callLLM, hm0]
  have htc0 : hasToolCalls (normalizeLLMMessage m0) = true := by
    rw [hasToolCalls_normalizeLLMMessage]; exact hmt0
  obtain ⟨hrounds, final, hfin, hft⟩ := chatLoop_always_tools E htotal 8
    (st ++ [{ role := Role.user, content := some msg }]) (normalizeLLMMessage m0) htc0
  exact ⟨by simp [handleChat, hc, hfin, hrounds], final, hft,
    by simp [handleChat, hc, hfin]⟩

/-- Witness for C9 at a backend that requests one tool call forever. -/
theorem ceiling_reached_silent_success_witness :
    (handleChat extAlwaysTools [] "hi").rounds = 8 ∧
      ∃ final, hasToolCalls final = true ∧
        (handleChat extAlwaysTools [] "hi").outcome =
          ChatOutcome.response (final.content.getD "") :=
  ceiling_reached_silent_success extAlwaysTools [] "hi"
    (fun _ => ⟨{ content := none, tool_calls := some [tcA] }, rfl, rfl⟩)

end Nutri
